import Mathlib

/-!
Shallow embedding of the ITAM backend asset workflow
(`backend/app/routers/assets.py` together with the ORM models in
`backend/app/models/models.py`), and theorems settling the frozen claims
about the asset issuance / signature-gated state machine.

Timestamps are modelled as natural numbers (seconds); `datetime.utcnow()`
becomes an explicit `now` parameter threaded through every operation.
The SQLAlchemy session is modelled as an explicit record of tables
(lists of rows, in insertion order, which is the order an unordered
query returns for SQLite) plus autoincrement counters.  Each endpoint
becomes a function `DB → … → DB × Except ApiError α`: the returned `DB`
is the state left committed by the handler (note `sign_document` commits
the EXPIRED transition even though it then raises, so errors do not
always leave the state unchanged).
-/

namespace ITAM

/-- Asset lifecycle status, from `AssetStatus` in `models.py`. -/
inductive AssetStatus where
  | available
  | pending_for_signature
  | in_use
  | maintenance
  | retired
deriving DecidableEq, Repr

/-- The `.value` string of each `AssetStatus` member. -/
def AssetStatus.value : AssetStatus → String
  | .available => "available"
  | .pending_for_signature => "pending_for_signature"
  | .in_use => "in_use"
  | .maintenance => "maintenance"
  | .retired => "retired"

/-- Python `AssetStatus(s)`: the member whose value is `s`, or `none`
where the enum constructor raises `ValueError`. -/
def AssetStatus.parse? (s : String) : Option AssetStatus :=
  if s = "available" then some .available
  else if s = "pending_for_signature" then some .pending_for_signature
  else if s = "in_use" then some .in_use
  else if s = "maintenance" then some .maintenance
  else if s = "retired" then some .retired
  else none

/-- User roles, from `UserRole` in `models.py`. -/
inductive UserRole where
  | admin
  | manager
  | viewer
deriving DecidableEq, Repr

/-- The `.value` string of each `UserRole` member. -/
def UserRole.value : UserRole → String
  | .admin => "admin"
  | .manager => "manager"
  | .viewer => "viewer"

/-- Document types of the signature workflow, from `DocumentType` in `models.py`. -/
inductive DocumentType where
  | declaration_form
  | it_orientation
  | handover_form
deriving DecidableEq, Repr

/-- The `.value` string of each `DocumentType` member. -/
def DocumentType.value : DocumentType → String
  | .declaration_form => "declaration_form"
  | .it_orientation => "it_orientation"
  | .handover_form => "handover_form"

/-- Document signing status, from `DocumentStatus` in `models.py`. -/
inductive DocumentStatus where
  | pending
  | signed
  | expired
  | cancelled
deriving DecidableEq, Repr

/-- Row of the `users` table (`User` model). -/
structure User where
  id : Nat
  username : String
  email : String
  full_name : String
  department : String
  role : UserRole
  is_active : Bool
deriving DecidableEq, Repr

/-- Row of the `assets` table (`Asset` model). -/
structure Asset where
  id : Nat
  asset_id : String
  asset_tag : Option String
  type : String
  brand : String
  model : String
  serial_number : Option String
  department : String
  location : Option String
  purchase_date : Nat
  warranty_expiry : Nat
  purchase_cost : Option String
  condition : String
  notes : Option String
  status : AssetStatus
  os : Option String
  os_version : Option String
  assigned_user_id : Option Nat
  created_at : Nat
  updated_at : Nat
deriving DecidableEq, Repr

/-- Row of the `asset_issuances` table (`AssetIssuance` model). -/
structure AssetIssuance where
  id : Nat
  asset_id : Nat
  user_id : Nat
  issued_date : Nat
  expected_return_date : Option Nat
  return_date : Option Nat
  notes : Option String
  issued_by : String
  created_at : Nat
deriving DecidableEq, Repr

/-- Row of the `asset_documents` table (`AssetDocument` model). -/
structure AssetDocument where
  id : Nat
  asset_id : Nat
  user_id : Nat
  document_type : DocumentType
  status : DocumentStatus
  document_data : Option String
  signature_data : Option String
  signed_at : Option Nat
  expires_at : Option Nat
  created_at : Nat
deriving DecidableEq, Repr

/-- Row of the `audit_logs` table (`AuditLog` model).  The ip_address and
user_agent columns are always `None` on the code paths modelled here and
are omitted. -/
structure AuditLog where
  id : Nat
  action : String
  resource_type : String
  resource_id : Option String
  resource_name : Option String
  user_id : Nat
  user_name : String
  user_role : String
  description : String
  details : Option String
  old_values : Option String
  new_values : Option String
  asset_id : Option Nat
  asset_identifier : Option String
  timestamp : Nat
deriving DecidableEq, Repr

/-- The database session state: one list per table (insertion order) plus
the autoincrement counters backing the integer primary keys. -/
structure DB where
  users : List User
  assets : List Asset
  issuances : List AssetIssuance
  documents : List AssetDocument
  audit_logs : List AuditLog
  next_user_id : Nat
  next_asset_id : Nat
  next_issuance_id : Nat
  next_document_id : Nat
  next_audit_id : Nat
deriving DecidableEq, Repr

/-- An `HTTPException`: status code plus detail message. -/
structure ApiError where
  status_code : Nat
  detail : String
deriving DecidableEq, Repr

/-- Minimal rendering of `json.dumps` applied to a string-keyed dict whose
values may be `None`.  String escaping is not modelled; no claim inspects
these audit payload strings. -/
def jsonOfPairs (ps : List (String × Option String)) : String :=
  "\x7b" ++ String.intercalate ", "
    (ps.map fun p =>
      "\"" ++ p.1 ++ "\": " ++
        (match p.2 with
         | some v => "\"" ++ v ++ "\""
         | none => "null")) ++ "\x7d"

/-- Python `str` applied to an optional timestamp (`str(None) = "None"`);
datetime rendering is abbreviated to the tick count. -/
def pyStrOptNat : Option Nat → String
  | none => "None"
  | some n => toString n

/-- Drops leading whitespace characters from a character list. -/
def dropLeadingWs : List Char → List Char
  | [] => []
  | c :: cs => if c.isWhitespace then dropLeadingWs cs else c :: cs

/-- Python `str.strip()`: removes leading and trailing whitespace.
(Defined structurally over the character list so that it evaluates by
kernel reduction.) -/
def pyStrip (s : String) : String :=
  ⟨(dropLeadingWs ((dropLeadingWs s.data).reverse)).reverse⟩

/-- Whether `lead` is an initial segment of `cs`. -/
def leadsWith : List Char → List Char → Bool
  | [], _ => true
  | _ :: _, [] => false
  | c :: cs, h :: hs => c == h && leadsWith cs hs

/-- Whether `needle` occurs as a contiguous sublist of `hay`. -/
def hasSub (hay needle : List Char) : Bool :=
  match hay with
  | [] => needle.isEmpty
  | _ :: hs => leadsWith needle hay || hasSub hs needle

/-- Python `str.split(",")`: splits on every comma (no trimming, empty
pieces kept). -/
def splitComma : List Char → List (List Char)
  | [] => [[]]
  | c :: cs =>
    if c == ',' then [] :: splitComma cs
    else
      match splitComma cs with
      | [] => [[c]]
      | g :: gs => (c :: g) :: gs

/-- Case-insensitive substring test, modelling a SQL `ILIKE %needle%`
match for a nonempty needle. -/
def lowerContains (hay needle : String) : Bool :=
  hasSub (hay.data.map Char.toLower) (needle.data.map Char.toLower)

/-- `ILIKE` on a nullable column: SQL NULL never matches. -/
def optLowerContains (hay : Option String) (needle : String) : Bool :=
  match hay with
  | some h => lowerContains h needle
  | none => false

/-- The `log_audit_action` helper of `assets.py`: builds an `AuditLog`
row, adds it and commits. -/
def log_audit_action (db : DB) (action : String) (resource_type : String)
    (resource_id : Option String) (resource_name : Option String)
    (user_id : Nat) (user_name : String) (user_role : String)
    (description : String) (details : Option String)
    (old_values : Option String) (new_values : Option String)
    (asset_id : Option Nat) (asset_identifier : Option String)
    (now : Nat) : DB :=
  { db with
    audit_logs := db.audit_logs ++
      [{ id := db.next_audit_id, action := action, resource_type := resource_type,
         resource_id := resource_id, resource_name := resource_name,
         user_id := user_id, user_name := user_name, user_role := user_role,
         description := description, details := details,
         old_values := old_values, new_values := new_values,
         asset_id := asset_id, asset_identifier := asset_identifier,
         timestamp := now }],
    next_audit_id := db.next_audit_id + 1 }

/-- The `get_system_user` helper: finds the user with username "system",
creating (and committing) it if absent. -/
def get_system_user (db : DB) : DB × User :=
  match db.users.find? (fun u => u.username == "system") with
  | some u => (db, u)
  | none =>
    let u : User :=
      { id := db.next_user_id, username := "system", email := "system@itam.local",
        full_name := "System User", department := "IT", role := .admin,
        is_active := true }
    ({ db with users := db.users ++ [u], next_user_id := db.next_user_id + 1 }, u)

/-- The `AssetCreate` request body (Pydantic `AssetBase`). -/
structure AssetCreate where
  asset_id : String
  asset_tag : Option String := none
  type : String
  brand : String
  model : String
  serial_number : Option String := none
  department : String
  location : Option String := none
  purchase_date : Nat
  warranty_expiry : Nat
  purchase_cost : Option String := none
  condition : String := "Good"
  notes : Option String := none
  os : Option String := none
  os_version : Option String := none
deriving DecidableEq, Repr

/-- POST `/assets/` (`create_asset`): rejects a duplicate `asset_id`,
otherwise inserts the asset (status defaults to AVAILABLE, no assignee)
and writes a "create" audit entry attributed to the system user. -/
def create_asset (db : DB) (a : AssetCreate) (now : Nat) :
    DB × Except ApiError Asset :=
  if (db.assets.find? (fun b => b.asset_id == a.asset_id)).isSome then
    (db, .error ⟨400, "Asset ID already exists"⟩)
  else
    let asset : Asset :=
      { id := db.next_asset_id, asset_id := a.asset_id, asset_tag := a.asset_tag,
        type := a.type, brand := a.brand, model := a.model,
        serial_number := a.serial_number, department := a.department,
        location := a.location, purchase_date := a.purchase_date,
        warranty_expiry := a.warranty_expiry, purchase_cost := a.purchase_cost,
        condition := a.condition, notes := a.notes, status := .available,
        os := a.os, os_version := a.os_version, assigned_user_id := none,
        created_at := now, updated_at := now }
    let db1 := { db with assets := db.assets ++ [asset],
                         next_asset_id := db.next_asset_id + 1 }
    let su := get_system_user db1
    let db2 := log_audit_action su.1 "create" "asset" (some (toString asset.id))
      (some (asset.brand ++ " " ++ asset.model)) su.2.id su.2.full_name
      su.2.role.value ("Asset " ++ asset.asset_id ++ " created")
      (some ("Type: " ++ asset.type ++ ", Status: " ++ asset.status.value ++
             ", Department: " ++ asset.department))
      none
      (some (jsonOfPairs
        [("asset_id", some asset.asset_id), ("type", some asset.type),
         ("brand", some asset.brand), ("model", some asset.model),
         ("status", some asset.status.value), ("department", some asset.department)]))
      (some asset.id) (some asset.asset_id) now
    (db2, .ok asset)

/-- GET `/assets/` (`get_assets`): filtering and pagination.  An invalid
(non-enum) status filter value is silently ignored — the `except
ValueError: pass` branch. -/
def get_assets (db : DB) (skip limit : Nat)
    (status department asset_type search : Option String) : List Asset :=
  let q := db.assets
  let q : List Asset := match status with
    | some s =>
      if pyStrip s ≠ "" then
        match AssetStatus.parse? (pyStrip s) with
        | some e => q.filter (fun a => a.status == e)
        | none => q
      else q
    | none => q
  let q : List Asset := match department with
    | some d => if pyStrip d ≠ "" then q.filter (fun a => a.department == pyStrip d) else q
    | none => q
  let q : List Asset := match asset_type with
    | some t =>
      if pyStrip t ≠ "" then
        let ts := (((splitComma t.data).map (fun cs => pyStrip ⟨cs⟩))).filter (fun x => x ≠ "")
        if ts ≠ [] then q.filter (fun a => ts.contains a.type) else q
      else q
    | none => q
  let q : List Asset := match search with
    | some s =>
      if pyStrip s ≠ "" then
        q.filter (fun a =>
          lowerContains a.asset_id (pyStrip s) || lowerContains a.brand (pyStrip s) ||
          lowerContains a.model (pyStrip s) || optLowerContains a.serial_number (pyStrip s))
      else q
    | none => q
  (q.drop skip).take limit

/-- The row-selection query of GET `/assets/export/csv`
(`export_assets_csv`): same permissive status-filter parsing as
`get_assets`; only the selection is modelled, not the CSV text. -/
def export_assets_csv_query (db : DB) (status department : Option String) :
    List Asset :=
  let q := db.assets
  let q : List Asset := match status with
    | some s =>
      if pyStrip s ≠ "" then
        match AssetStatus.parse? (pyStrip s) with
        | some e => q.filter (fun a => a.status == e)
        | none => q
      else q
    | none => q
  match department with
  | some d => if pyStrip d ≠ "" then q.filter (fun a => a.department == pyStrip d) else q
  | none => q

/-- The `AssetUpdate` request body.  Of the Pydantic model's optional
fields the ones exercised by the endpoints under verification are kept
(`asset_id`, `department`, `location`, `condition`, `notes`, `status`, in
the model's declaration order); the omitted ones go through exactly the
same unconditional `setattr` branch as `department` and `notes`.
`none` means the field was not supplied (`exclude_unset`); supplying an
explicit JSON `null` is not modelled. -/
structure AssetUpdate where
  asset_id : Option String := none
  department : Option String := none
  location : Option String := none
  condition : Option String := none
  notes : Option String := none
  status : Option String := none
deriving DecidableEq, Repr

/-- One entry of the update-asset audit diff: the field name, the
original value rendered as Python would (`None` kept as `none`, enums as
their `.value`), and the submitted value. -/
structure FieldChange where
  key : String
  oldVal : Option String
  newVal : Option String
deriving DecidableEq, Repr

/-- The display formatting of `update_asset`:
`f-quoted value if old_val and str(old_val).strip() else "(empty)"`. -/
def displayVal : Option String → String
  | some s => if s ≠ "" && pyStrip s ≠ "" then "\"" ++ s ++ "\"" else "(empty)"
  | none => "(empty)"

/-- The "meaningful change" test of `update_asset`: the stripped string
renderings differ (`None` rendered as the empty string). -/
def changedMeaningfully (fc : FieldChange) : Bool :=
  pyStrip (fc.oldVal.getD "") ≠ pyStrip (fc.newVal.getD "")

/-- PUT `/assets/{asset_id}` (`update_asset`): applies the supplied
fields.  A status value that is not a valid `AssetStatus` is silently
skipped (`except ValueError: continue`); an empty-string status falls
into the generic `setattr` branch of the source and would store the raw
string in the enum column, which is unrepresentable here and excluded by
hypothesis in every theorem below.  An audit entry is written only when
at least one field meaningfully changed. -/
def update_asset (db : DB) (aid : Nat) (u : AssetUpdate) (cu : User) (now : Nat) :
    DB × Except ApiError Asset :=
  match db.assets.find? (fun a => a.id == aid) with
  | none => (db, .error ⟨404, "Asset not found"⟩)
  | some a =>
    let dupCheck : Bool := match u.asset_id with
      | some v => v != "" && v != a.asset_id &&
          (db.assets.find? (fun b => b.asset_id == v)).isSome
      | none => false
    if dupCheck then
      (db, .error ⟨400, "Asset ID already exists"⟩)
    else
      let s1 : Asset × List FieldChange := match u.asset_id with
        | some v => ({ a with asset_id := v }, [⟨"asset_id", some a.asset_id, some v⟩])
        | none => (a, [])
      let s2 : Asset × List FieldChange := match u.department with
        | some v => ({ s1.1 with department := v },
                     s1.2 ++ [⟨"department", some a.department, some v⟩])
        | none => s1
      let s3 : Asset × List FieldChange := match u.location with
        | some v => ({ s2.1 with location := some v },
                     s2.2 ++ [⟨"location", a.location, some v⟩])
        | none => s2
      let s4 : Asset × List FieldChange := match u.condition with
        | some v => ({ s3.1 with condition := v },
                     s3.2 ++ [⟨"condition", some a.condition, some v⟩])
        | none => s3
      let s5 : Asset × List FieldChange := match u.notes with
        | some v => ({ s4.1 with notes := some v },
                     s4.2 ++ [⟨"notes", a.notes, some v⟩])
        | none => s4
      let s6 : Asset × List FieldChange := match u.status with
        | some v =>
          if v = "" then s5
          else
            match AssetStatus.parse? v with
            | some st => ({ s5.1 with status := st },
                          s5.2 ++ [⟨"status", some a.status.value, some v⟩])
            | none => s5
        | none => s5
      let a2 : Asset := { s6.1 with updated_at := now }
      let changed := s6.2.filter changedMeaningfully
      let db1 :=
        if changed.isEmpty then db
        else
          log_audit_action db "update" "asset" (some (toString a2.id))
            (some (a2.brand ++ " " ++ a2.model)) cu.id cu.full_name cu.role.value
            ("Asset " ++ a2.asset_id ++ " updated")
            (some (String.intercalate ", " (changed.map fun fc =>
              fc.key ++ ": " ++ displayVal fc.oldVal ++ " → " ++ displayVal fc.newVal)))
            (some (jsonOfPairs (changed.map fun fc => (fc.key, fc.oldVal))))
            (some (jsonOfPairs (changed.map fun fc => (fc.key, fc.newVal))))
            (some a2.id) (some a2.asset_id) now
      ({ db1 with assets := db1.assets.map (fun b => if b.id == aid then a2 else b) },
       .ok a2)

/-- DELETE `/assets/{asset_id}` (`delete_asset`): refuses while an active
issuance references the asset, otherwise audits (as the system user) and
removes the row. -/
def delete_asset (db : DB) (aid : Nat) (now : Nat) : DB × Except ApiError Unit :=
  match db.assets.find? (fun a => a.id == aid) with
  | none => (db, .error ⟨404, "Asset not found"⟩)
  | some asset =>
    if (db.issuances.find? (fun i => i.asset_id == aid && i.return_date.isNone)).isSome then
      (db, .error ⟨400, "Cannot delete asset that is currently issued"⟩)
    else
      let su := get_system_user db
      let db2 := log_audit_action su.1 "delete" "asset" (some (toString asset.id))
        (some (asset.brand ++ " " ++ asset.model)) su.2.id su.2.full_name
        su.2.role.value ("Asset " ++ asset.asset_id ++ " deleted")
        (some ("Deleted asset: " ++ asset.asset_id ++ " (" ++ asset.brand ++ " " ++
               asset.model ++ ")"))
        (some (jsonOfPairs
          [("asset_id", some asset.asset_id), ("brand", some asset.brand),
           ("model", some asset.model), ("type", some asset.type),
           ("status", some asset.status.value), ("department", some asset.department),
           ("location", asset.location)]))
        none (some asset.id) (some asset.asset_id) now
      ({ db2 with assets := db2.assets.filter (fun b => !(b.id == aid)) }, .ok ())

/-- The request body of POST `/assets/{asset_id}/issue`. -/
structure AssetIssuanceCreate where
  user_id : Nat
  expected_return_date : Option Nat := none
  notes : Option String := none
  issued_by : String
deriving DecidableEq, Repr

/-- `timedelta(days=7)` in seconds: the signing window of each document. -/
def sevenDays : Nat := 604800

/-- POST `/assets/{asset_id}/issue` (`issue_asset`) up to and including
the `db.commit()` that follows document creation: guards (asset found,
status AVAILABLE, user found — there is no active-issuance check), then
the issuance insert, the asset status/assignment/department writes and
the three pending document inserts, all committed together.  This is the
FIRST committed state of the endpoint; the audit append is a separate,
second commit (see `issue_asset`). -/
def issue_asset_core (db : DB) (aid : Nat) (req : AssetIssuanceCreate) (now : Nat) :
    DB × Except ApiError (AssetIssuance × Asset × User) :=
  match db.assets.find? (fun a => a.id == aid) with
  | none => (db, .error ⟨404, "Asset not found"⟩)
  | some asset =>
    if asset.status != AssetStatus.available then
      (db, .error ⟨400, "Asset is not available for issuance"⟩)
    else
      match db.users.find? (fun us => us.id == req.user_id) with
      | none => (db, .error ⟨404, "User not found"⟩)
      | some user =>
        let iss : AssetIssuance :=
          { id := db.next_issuance_id, asset_id := aid, user_id := req.user_id,
            issued_date := now, expected_return_date := req.expected_return_date,
            return_date := none, notes := req.notes, issued_by := req.issued_by,
            created_at := now }
        let asset2 : Asset :=
          { asset with status := .pending_for_signature,
                       assigned_user_id := some req.user_id,
                       department := user.department, updated_at := now }
        let mkDoc : Nat → DocumentType → AssetDocument := fun k dt =>
          { id := db.next_document_id + k, asset_id := aid, user_id := req.user_id,
            document_type := dt, status := .pending, document_data := none,
            signature_data := none, signed_at := none,
            expires_at := some (now + sevenDays), created_at := now }
        let docs := [mkDoc 0 .declaration_form, mkDoc 1 .it_orientation,
                     mkDoc 2 .handover_form]
        ({ db with
            issuances := db.issuances ++ [iss],
            next_issuance_id := db.next_issuance_id + 1,
            assets := db.assets.map (fun b => if b.id == aid then asset2 else b),
            documents := db.documents ++ docs,
            next_document_id := db.next_document_id + 3 },
         .ok (iss, asset, user))

/-- POST `/assets/{asset_id}/issue` (`issue_asset`), complete: the core
commit followed by the `log_audit_action` helper, which performs its own
second `db.commit()`. -/
def issue_asset (db : DB) (aid : Nat) (req : AssetIssuanceCreate) (cu : User)
    (now : Nat) : DB × Except ApiError AssetIssuance :=
  match issue_asset_core db aid req now with
  | (db1, .error e) => (db1, .error e)
  | (db1, .ok (iss, asset, user)) =>
    let db2 := log_audit_action db1 "assign" "asset" (some (toString asset.id))
      (some (asset.brand ++ " " ++ asset.model)) cu.id cu.full_name cu.role.value
      ("Asset " ++ asset.asset_id ++ " assigned to " ++ user.full_name ++
       " (pending signature)")
      (some ("Asset type: " ++ asset.type ++ ", Expected return: " ++
             pyStrOptNat req.expected_return_date))
      none none (some asset.id) (some asset.asset_id) now
    (db2, .ok iss)

/-- The "latest active issuance" query of `return_asset`: among the
issuances of the asset with NULL return_date, the first under
`ORDER BY issued_date DESC` (on equal dates the relative order is
unspecified by SQL; the earlier row is kept here). -/
def latest_active_issuance (db : DB) (aid : Nat) : Option AssetIssuance :=
  (db.issuances.filter (fun i => i.asset_id == aid && i.return_date.isNone)).foldl
    (fun best i =>
      match best with
      | none => some i
      | some b => if b.issued_date < i.issued_date then some i else some b) none

/-- POST `/assets/{asset_id}/return` (`return_asset`): closes the latest
active issuance, resets the asset to AVAILABLE with no assignee and the
default "IT" department.  Documents are not touched and no audit entry is
written. -/
def return_asset (db : DB) (aid : Nat) (now : Nat) :
    DB × Except ApiError AssetIssuance :=
  match db.assets.find? (fun a => a.id == aid) with
  | none => (db, .error ⟨404, "Asset not found"⟩)
  | some asset =>
    match latest_active_issuance db aid with
    | none => (db, .error ⟨400, "No active issuance record found"⟩)
    | some iss =>
      let iss2 := { iss with return_date := some now }
      let asset2 := { asset with status := .available, assigned_user_id := none,
                                 department := "IT", updated_at := now }
      ({ db with
          issuances := db.issuances.map (fun i => if i.id == iss.id then iss2 else i),
          assets := db.assets.map (fun b => if b.id == aid then asset2 else b) },
       .ok iss2)

/-- The request body of POST `/assets/documents/{document_id}/sign`. -/
structure DocumentSignRequest where
  signature_data : String
  document_data : Option String := none
deriving DecidableEq, Repr

/-- POST `/assets/documents/{document_id}/sign` (`sign_document`):
rejects a missing or non-PENDING document; on a lapsed signing window
commits the EXPIRED transition and then raises; otherwise stores the
signature, recomputes the all-signed test over the (asset,user) cohort
restricted to PENDING-or-SIGNED documents, and on success moves the
asset to IN_USE. -/
def sign_document (db : DB) (did : Nat) (req : DocumentSignRequest) (now : Nat) :
    DB × Except ApiError AssetDocument :=
  match db.documents.find? (fun d => d.id == did) with
  | none => (db, .error ⟨404, "Document not found"⟩)
  | some doc =>
    if doc.status != DocumentStatus.pending then
      (db, .error ⟨400, "Document is not pending signature"⟩)
    else if (match doc.expires_at with
             | some t => decide (t < now)
             | none => false) then
      ({ db with
          documents := db.documents.map (fun d =>
            if d.id == did then { doc with status := .expired } else d) },
       .error ⟨400, "Document has expired"⟩)
    else
      let doc2 := { doc with status := .signed,
                             signature_data := some req.signature_data,
                             document_data := req.document_data,
                             signed_at := some now }
      let db1 : DB := { db with
        documents := db.documents.map (fun d =>
          if d.id == did then doc2 else d) }
      let assetQ := db1.assets.find? (fun a => a.id == doc.asset_id)
      let userQ := db1.users.find? (fun us => us.id == doc.user_id)
      let all_documents := db1.documents.filter (fun d =>
        d.asset_id == doc.asset_id && d.user_id == doc.user_id &&
        (d.status == DocumentStatus.pending || d.status == DocumentStatus.signed))
      let all_signed := all_documents.all (fun d => d.status == DocumentStatus.signed)
      let db2 : DB :=
        match assetQ with
        | some asset =>
          if all_signed then
            let asset2 := { asset with status := .in_use, updated_at := now }
            let dbA : DB := { db1 with
              assets := db1.assets.map (fun b =>
                if b.id == asset.id then asset2 else b) }
            log_audit_action dbA "status_change" "asset" (some (toString asset.id))
              (some (asset.brand ++ " " ++ asset.model))
              (match userQ with | some us => us.id | none => 1)
              (match userQ with | some us => us.full_name | none => "System")
              (match userQ with | some us => us.role.value | none => "user")
              ("Asset " ++ asset.asset_id ++
               " is now in use after all documents were signed by " ++
               (match userQ with | some us => us.full_name | none => "user"))
              (some "All required documents signed for asset issuance")
              none none (some asset.id) (some asset.asset_id) now
          else db1
        | none => db1
      let db3 := log_audit_action db2 "sign_document" "document"
        (some (toString doc.id))
        (some (doc.document_type.value ++ " for " ++
               (match assetQ with | some asset => asset.asset_id | none => "asset")))
        (match userQ with | some us => us.id | none => 1)
        (match userQ with | some us => us.full_name | none => "User")
        (match userQ with | some us => us.role.value | none => "user")
        ("Document " ++ doc.document_type.value ++ " signed by " ++
         (match userQ with | some us => us.full_name | none => "user"))
        (some ("Asset: " ++
               (match assetQ with | some asset => asset.asset_id | none => "unknown") ++
               ", Document type: " ++ doc.document_type.value))
        none none
        (match assetQ with | some asset => some asset.id | none => none)
        (match assetQ with | some asset => some asset.asset_id | none => none) now
      (db3, .ok doc2)

/-- POST `/assets/issuances/{issuance_id}/cancel` (`cancel_issuance`):
guarded only by the asset's CURRENT status (the issuance's own
return_date is never consulted); reverts the asset, closes the issuance
with a "CANCELLED: reason" note, cancels the cohort's PENDING documents
and audits — all in one commit. -/
def cancel_issuance (db : DB) (iid : Nat) (reason : String) (cu : User) (now : Nat) :
    DB × Except ApiError String :=
  match db.issuances.find? (fun i => i.id == iid) with
  | none => (db, .error ⟨404, "Issuance not found"⟩)
  | some iss =>
    match db.assets.find? (fun a => a.id == iss.asset_id) with
    | none => (db, .error ⟨404, "Asset not found"⟩)
    | some asset =>
      if asset.status != AssetStatus.pending_for_signature &&
         asset.status != AssetStatus.in_use then
        (db, .error ⟨400, "Can only cancel pending or active issuances"⟩)
      else
        let userQ := db.users.find? (fun us => us.id == iss.user_id)
        let asset2 := { asset with status := .available, assigned_user_id := none,
                                   department := "IT", updated_at := now }
        let iss2 := { iss with return_date := some now,
                               notes := some ("CANCELLED: " ++ reason) }
        let db1 := { db with
          assets := db.assets.map (fun b => if b.id == asset.id then asset2 else b),
          issuances := db.issuances.map (fun i => if i.id == iid then iss2 else i),
          documents := db.documents.map (fun d =>
            if d.asset_id == asset.id && d.user_id == iss.user_id &&
               d.status == DocumentStatus.pending
            then { d with status := .cancelled } else d) }
        let db2 := log_audit_action db1 "cancel_issuance" "asset"
          (some (toString asset.id)) (some (asset.brand ++ " " ++ asset.model))
          cu.id cu.full_name cu.role.value
          ("Issuance for " ++ asset.asset_id ++ " to " ++
           (match userQ with | some us => us.full_name | none => "user") ++
           " was cancelled")
          (some ("Reason: " ++ reason)) none none (some asset.id)
          (some asset.asset_id) now
        (db2, .ok "Issuance cancelled successfully")

/-- The spec §3/§8.1 per-asset state invariant: `assigned_user` is set if
and only if the status is PENDING_FOR_SIGNATURE or IN_USE. -/
def assetInvariant (a : Asset) : Prop :=
  a.assigned_user_id ≠ none ↔
    (a.status = .pending_for_signature ∨ a.status = .in_use)

instance (a : Asset) : Decidable (assetInvariant a) := by
  unfold assetInvariant; infer_instance

/-- The invariant of `assetInvariant` over every asset row of the database. -/
def dbAssetInvariant (db : DB) : Prop := ∀ a ∈ db.assets, assetInvariant a

instance (db : DB) : Decidable (dbAssetInvariant db) :=
  List.decidableBAll _ _

/-- The issuance rows of an asset with `return_date IS NULL` (the "active"
issuances of the spec's ledger). -/
def activeIssuancesFor (db : DB) (aid : Nat) : List AssetIssuance :=
  db.issuances.filter (fun i => i.asset_id == aid && i.return_date.isNone)

/-- The all-signed recomputation of `sign_document`, as the code performs
it: over the (asset,user) cohort restricted to documents whose status is
PENDING or SIGNED — EXPIRED and CANCELLED documents are excluded from the
query — every document is SIGNED. -/
def allSigned (db : DB) (aid uid : Nat) : Bool :=
  (db.documents.filter (fun d =>
    d.asset_id == aid && d.user_id == uid &&
    (d.status == DocumentStatus.pending || d.status == DocumentStatus.signed))).all
    (fun d => d.status == DocumentStatus.signed)

/-! Concrete fixtures: a small user directory and the states reached by
running the endpoints on it.  These are inputs for the counterexamples
and witnesses below; every state is built by the operations themselves,
so each one is reachable behaviour of the code. -/

/-- Fixture: an administrator account. -/
def adminUser : User :=
  { id := 1, username := "admin", email := "admin@itam.local",
    full_name := "Admin One", department := "IT", role := .admin,
    is_active := true }

/-- Fixture: an employee in the Finance department. -/
def bobUser : User :=
  { id := 2, username := "bob", email := "bob@itam.local",
    full_name := "Bob Lee", department := "Finance", role := .viewer,
    is_active := true }

/-- Fixture: an employee in the HR department. -/
def carolUser : User :=
  { id := 3, username := "carol", email := "carol@itam.local",
    full_name := "Carol Tan", department := "HR", role := .viewer,
    is_active := true }

/-- Fixture: the empty database seeded with the three users. -/
def db0 : DB :=
  { users := [adminUser, bobUser, carolUser], assets := [], issuances := [],
    documents := [], audit_logs := [], next_user_id := 4, next_asset_id := 1,
    next_issuance_id := 1, next_document_id := 1, next_audit_id := 1 }

/-- Fixture: the creation request for laptop LAP-001. -/
def lapCreate : AssetCreate :=
  { asset_id := "LAP-001", type := "laptop", brand := "Dell",
    model := "XPS 13", department := "IT", purchase_date := 0,
    warranty_expiry := 100000000 }

/-- Fixture: the database after `create_asset` added LAP-001 (row id 1). -/
def dbA : DB := (create_asset db0 lapCreate 0).1

/-- The asset row created for LAP-001, as stored in `dbA`. -/
def lapAsset : Asset :=
  { id := 1, asset_id := "LAP-001", asset_tag := none, type := "laptop",
    brand := "Dell", model := "XPS 13", serial_number := none,
    department := "IT", location := none, purchase_date := 0,
    warranty_expiry := 100000000, purchase_cost := none, condition := "Good",
    notes := none, status := .available, os := none, os_version := none,
    assigned_user_id := none, created_at := 0, updated_at := 0 }

/-- Fixture: issuance request assigning to Bob. -/
def issueReqBob : AssetIssuanceCreate := { user_id := 2, issued_by := "admin" }

/-- Fixture: issuance request assigning to Carol. -/
def issueReqCarol : AssetIssuanceCreate := { user_id := 3, issued_by := "admin" }

/-- Fixture: the database after issuing LAP-001 to Bob at time 0
(issuance 1 active, documents 1–3 pending, asset PENDING_FOR_SIGNATURE). -/
def dbB : DB := (issue_asset dbA 1 issueReqBob adminUser 0).1

/-- Fixture: the administrative set-status request writing "available". -/
def setAvailableUpd : AssetUpdate := { status := some "available" }

/-- Fixture: the database after an administrator resets the issued
LAP-001 to AVAILABLE through PUT `/assets/1` while issuance 1 is still
active and Bob is still the assignee. -/
def dbAdminAvail : DB := (update_asset dbB 1 setAvailableUpd adminUser 10).1

/-- Fixture: issuing LAP-001 a second time (to Carol) right after the
administrative status reset, while Bob's issuance 1 is still active. -/
def reissueCarol : DB × Except ApiError AssetIssuance :=
  issue_asset dbAdminAvail 1 issueReqCarol adminUser 20

/-- Fixture (C3 trace): Bob signs documents 2 and 3 early, the asset is
returned, and LAP-001 is issued to Bob a second time at the exact moment
the first cohort's signing window ends (documents 4–6 expire one window
later). -/
def dbReissueBob : DB :=
  (issue_asset (return_asset
    ((sign_document ((sign_document dbB 2 ⟨"sig2", none⟩ 10).1) 3
      ⟨"sig3", none⟩ 20).1) 1 30).1 1 issueReqBob adminUser sevenDays).1

/-- Fixture (C3 trace): the failed attempt to sign document 1 just after
its window lapsed leaves it EXPIRED. -/
def dbDoc1Expired : DB :=
  (sign_document dbReissueBob 1 ⟨"sig1", none⟩ (sevenDays + 1)).1

/-- Fixture (C3 trace): documents 4 and 5 of the second cohort signed. -/
def dbCohort2Partial : DB :=
  (sign_document ((sign_document dbDoc1Expired 4 ⟨"sig4", none⟩
    (sevenDays + 2)).1) 5 ⟨"sig5", none⟩ (sevenDays + 3)).1

/-- Fixture (C3 trace): the final signature of document 6. -/
def signDoc6 : DB × Except ApiError AssetDocument :=
  sign_document dbCohort2Partial 6 ⟨"sig6", none⟩ (sevenDays + 4)

/-- Fixture: LAP-001 returned from Bob at time 30 — issuance 1 closed,
asset AVAILABLE again. -/
def dbRet : DB := (return_asset dbB 1 30).1

/-- Fixture (C6 trace): after the return, LAP-001 issued to Carol at
time 40 (issuance 2 active, asset back at PENDING_FOR_SIGNATURE). -/
def dbReissueCarol : DB := (issue_asset dbRet 1 issueReqCarol adminUser 40).1

/-- Fixture (C6): cancelling the already-closed issuance 1 while the
asset is pending on Carol's issuance 2. -/
def cancelClosed : DB × Except ApiError String :=
  cancel_issuance dbReissueCarol 1 "changed mind" adminUser 50

/-- Fixture (C8): the state committed by the first `db.commit()` of
`issue_asset` on `dbA` — core writes present, audit entry absent. -/
def c8Mid : DB := (issue_asset_core dbA 1 issueReqBob 0).1

/-- Fixture (C9): an update request carrying a new note together with an
invalid status string. -/
def bogusUpd : AssetUpdate := { notes := some "hello", status := some "bogus" }

/-- Fixture (C9): the result of updating LAP-001 with `bogusUpd`. -/
def bogusUpdRes : DB × Except ApiError Asset := update_asset dbA 1 bogusUpd adminUser 7

/-- The LAP-001 row as stored right after the issuance to Bob at time 0:
pending signature, assigned to Bob, mirroring Bob's department. -/
def lapAssetPending : Asset :=
  { lapAsset with status := .pending_for_signature, assigned_user_id := some 2,
                  department := "Finance", updated_at := 0 }

/-- The LAP-001 row in `dbAdminAvail`: the administrative reset wrote
status AVAILABLE at time 10 but left Bob assigned. -/
def lapAssetReset : Asset :=
  { lapAsset with status := .available, assigned_user_id := some 2,
                  department := "Finance", updated_at := 10 }

/-- The LAP-001 row in `dbRet`: returned at time 30. -/
def lapAssetReturned : Asset :=
  { lapAsset with status := .available, assigned_user_id := none,
                  department := "IT", updated_at := 30 }

/-- The LAP-001 row in `dbCohort2Partial`: pending on Bob's second
issuance, opened at time `sevenDays`. -/
def lapAssetPending2 : Asset :=
  { lapAsset with status := .pending_for_signature, assigned_user_id := some 2,
                  department := "Finance", updated_at := sevenDays }

/-- Issuance 1 as opened by the issue to Bob at time 0. -/
def iss1Fixture : AssetIssuance :=
  { id := 1, asset_id := 1, user_id := 2, issued_date := 0,
    expected_return_date := none, return_date := none, notes := none,
    issued_by := "admin", created_at := 0 }

/-- Issuance 1 as stored in `dbRet`: closed at time 30. -/
def iss1Closed : AssetIssuance := { iss1Fixture with return_date := some 30 }

/-- Document 1 (declaration form of the first cohort), still PENDING in
`dbReissueBob` with its signing window ending at `sevenDays`. -/
def doc1Fixture : AssetDocument :=
  { id := 1, asset_id := 1, user_id := 2, document_type := .declaration_form,
    status := .pending, document_data := none, signature_data := none,
    signed_at := none, expires_at := some sevenDays, created_at := 0 }

/-- Document 6 (handover form of the second cohort), still PENDING in
`dbCohort2Partial`, expiring at `sevenDays + sevenDays`. -/
def doc6Fixture : AssetDocument :=
  { id := 6, asset_id := 1, user_id := 2, document_type := .handover_form,
    status := .pending, document_data := none, signature_data := none,
    signed_at := none, expires_at := some (sevenDays + sevenDays),
    created_at := sevenDays }

/-! Helper lemmas about the in-place row updates (`UPDATE … WHERE` is
modelled as a map that replaces the rows matching a predicate). -/

theorem find?_map_if {α : Type} {p : α → Bool} {l : List α} {x : α} (y : α)
    (h : l.find? p = some x) (hy : p y = true) :
    (l.map (fun a => if p a then y else a)).find? p = some y := by
  induction l with
  | nil => simp at h
  | cons a l ih =>
    by_cases hp : p a
    · rw [List.find?_cons_of_pos _ hp] at h
      simp only [List.map_cons, hp, if_pos]
      exact List.find?_cons_of_pos _ hy
    · rw [List.find?_cons_of_neg _ hp] at h
      simp only [List.map_cons, hp, if_neg, Bool.false_eq_true, not_false_iff,
        ite_false]
      rw [List.find?_cons_of_neg _ hp]
      exact ih h

theorem mem_map_if_of_ne {α : Type} {p : α → Bool} {l : List α} {a : α} (y : α)
    (ha : a ∈ l) (hpa : p a = false) :
    a ∈ l.map (fun b => if p b then y else b) := by
  have : a = (fun b => if p b then y else b) a := by simp [hpa]
  rw [this]
  exact List.mem_map_of_mem _ ha

theorem mem_map_transform_of_eq {α : Type} (g : α → α) {l : List α} {a : α}
    (ha : a ∈ l) {b : α} (hb : g a = b) : b ∈ l.map g :=
  hb ▸ List.mem_map_of_mem g ha

theorem forall_mem_map_if {α : Type} {P : α → Prop} {p : α → Bool} {l : List α}
    {y : α} (h : ∀ a ∈ l, P a) (hy : P y) :
    ∀ a ∈ l.map (fun b => if p b then y else b), P a := by
  intro a ha
  rcases List.mem_map.mp ha with ⟨b, hb, hba⟩
  by_cases hp : p b = true
  · simp only [hp, if_true] at hba
    exact hba ▸ hy
  · simp only [hp, if_false] at hba
    exact hba ▸ h b hb

/-- C4: issuing an AVAILABLE asset to an existing user succeeds, opens an
issuance with NULL return_date, creates exactly three PENDING documents
for the same (asset, user) pair, and moves the asset to
PENDING_FOR_SIGNATURE with the user assigned and the user's department. -/
theorem issue_available_succeeds (db : DB) (aid : Nat) (req : AssetIssuanceCreate)
    (cu : User) (now : Nat) (asset : Asset) (user : User)
    (hfind : db.assets.find? (fun a => a.id == aid) = some asset)
    (hstatus : asset.status = AssetStatus.available)
    (huser : db.users.find? (fun us => us.id == req.user_id) = some user) :
    ∃ iss : AssetIssuance,
      (issue_asset db aid req cu now).2 = .ok iss ∧
      iss.asset_id = aid ∧ iss.user_id = req.user_id ∧ iss.return_date = none ∧
      (issue_asset db aid req cu now).1.issuances = db.issuances ++ [iss] ∧
      (∃ d1 d2 d3 : AssetDocument,
        (issue_asset db aid req cu now).1.documents = db.documents ++ [d1, d2, d3] ∧
        ∀ d ∈ [d1, d2, d3], d.status = DocumentStatus.pending ∧
          d.asset_id = aid ∧ d.user_id = req.user_id) ∧
      (∃ a2 : Asset,
        (issue_asset db aid req cu now).1.assets.find? (fun a => a.id == aid) =
          some a2 ∧
        a2.status = AssetStatus.pending_for_signature ∧
        a2.assigned_user_id = some req.user_id ∧
        a2.department = user.department) := by
  have hpa := List.find?_some hfind
  have hbne : (AssetStatus.available != AssetStatus.available) = false := by decide
  unfold issue_asset issue_asset_core
  rw [hfind, huser]
  simp only [hstatus, hbne, Bool.false_eq_true, if_false]
  refine ⟨_, rfl, rfl, rfl, rfl, rfl, ?_, ?_⟩
  · exact ⟨_, _, _, rfl, by simp⟩
  · exact ⟨_, find?_map_if _ hfind (by simpa using hpa), rfl, rfl, rfl⟩

theorem pickLatest_mem {l : List AssetIssuance} :
    ∀ {acc : Option AssetIssuance} {x : AssetIssuance},
      l.foldl (fun best i =>
        match best with
        | none => some i
        | some b => if b.issued_date < i.issued_date then some i else some b)
        acc = some x →
      acc = some x ∨ x ∈ l := by
  induction l with
  | nil => intro acc x h; exact .inl h
  | cons a l ih =>
    intro acc x h
    rw [List.foldl_cons] at h
    rcases ih h with hacc | hmem
    · match acc with
      | none =>
        simp only [Option.some.injEq] at hacc
        exact .inr (hacc ▸ List.mem_cons_self a l)
      | some b =>
        by_cases hlt : b.issued_date < a.issued_date
        · simp only [hlt, if_true] at hacc
          simp only [Option.some.injEq] at hacc
          exact .inr (hacc ▸ List.mem_cons_self a l)
        · simp only [hlt, if_false] at hacc
          exact .inl hacc
    · exact .inr (List.mem_cons_of_mem a hmem)

/-- The latest-active-issuance query only returns an active (NULL
return_date) issuance row of the asset. -/
theorem latest_active_issuance_spec {db : DB} {aid : Nat} {iss : AssetIssuance}
    (h : latest_active_issuance db aid = some iss) :
    iss ∈ db.issuances ∧ iss.asset_id = aid ∧ iss.return_date = none := by
  unfold latest_active_issuance at h
  rcases pickLatest_mem h with hacc | hmem
  · cases hacc
  · have hmem' := List.mem_filter.mp hmem
    refine ⟨hmem'.1, ?_, ?_⟩
    · have := hmem'.2
      simp only [Bool.and_eq_true, beq_iff_eq] at this
      exact this.1
    · have := hmem'.2
      simp only [Bool.and_eq_true, Option.isNone_iff_eq_none] at this
      exact this.2

/-- C10: returning an asset that has an open issuance succeeds with no
precondition on the asset's status (IN_USE is not required): the open
issuance is closed with the current time, the asset reverts to AVAILABLE
with no assignee and the default "IT" department, and the document table
is left completely unchanged — the cohort's PENDING documents stay
PENDING, neither cancelled nor expired. -/
theorem return_ignores_status_keeps_documents (db : DB) (aid : Nat) (now : Nat)
    (asset : Asset) (iss : AssetIssuance)
    (hfind : db.assets.find? (fun a => a.id == aid) = some asset)
    (hact : latest_active_issuance db aid = some iss) :
    iss.return_date = none ∧
    (return_asset db aid now).2 = .ok { iss with return_date := some now } ∧
    { iss with return_date := some now } ∈ (return_asset db aid now).1.issuances ∧
    (∃ a2 : Asset,
      (return_asset db aid now).1.assets.find? (fun a => a.id == aid) = some a2 ∧
      a2.status = AssetStatus.available ∧ a2.assigned_user_id = none ∧
      a2.department = "IT") ∧
    (return_asset db aid now).1.documents = db.documents := by
  obtain ⟨hmem, _, hnone⟩ := latest_active_issuance_spec hact
  have hpa := List.find?_some hfind
  unfold return_asset
  rw [hfind, hact]
  refine ⟨hnone, rfl, ?_, ?_, rfl⟩
  · have := List.mem_map_of_mem
      (fun i => if i.id == iss.id then { iss with return_date := some now } else i) hmem
    simpa using this
  · exact ⟨_, find?_map_if _ hfind (by simpa using hpa), rfl, rfl, rfl⟩

/-- C7: signing a PENDING document whose expiry timestamp lies strictly
before the current time fails with "Document has expired"; the document's
status is moved to EXPIRED (and committed), its signature fields are
untouched, every other row of every table is unchanged, and in particular
the document does not become SIGNED. -/
theorem sign_expired_fails (db : DB) (did : Nat) (req : DocumentSignRequest)
    (now : Nat) (doc : AssetDocument) (t : Nat)
    (hfind : db.documents.find? (fun d => d.id == did) = some doc)
    (hpend : doc.status = DocumentStatus.pending)
    (hexp : doc.expires_at = some t) (hlt : t < now) :
    (sign_document db did req now).2 = .error ⟨400, "Document has expired"⟩ ∧
    (sign_document db did req now).1.documents.find? (fun d => d.id == did) =
      some { doc with status := DocumentStatus.expired } ∧
    AssetDocument.signature_data { doc with status := DocumentStatus.expired } =
      doc.signature_data ∧
    AssetDocument.signed_at { doc with status := DocumentStatus.expired } =
      doc.signed_at ∧
    (sign_document db did req now).1.assets = db.assets ∧
    (sign_document db did req now).1.issuances = db.issuances ∧
    (sign_document db did req now).1.audit_logs = db.audit_logs ∧
    (∀ d ∈ db.documents, d.id ≠ did →
      d ∈ (sign_document db did req now).1.documents) := by
  have hbne : (DocumentStatus.pending != DocumentStatus.pending) = false := by decide
  unfold sign_document
  rw [hfind]
  simp only [hpend, hbne, Bool.false_eq_true, if_false, hexp, decide_eq_true_eq,
    hlt, if_true]
  refine ⟨by trivial, ?_, by trivial, by trivial, by trivial, by trivial,
    by trivial, ?_⟩
  · exact find?_map_if _ hfind (by simpa using List.find?_some hfind)
  · intro d hd hne
    exact mem_map_if_of_ne _ hd (by simpa using hne)

/-- C5: cancelling an issuance whose asset currently stands at
PENDING_FOR_SIGNATURE or IN_USE succeeds: the asset reverts to AVAILABLE
with no assignee and the default "IT" department, the issuance row gets
`return_date = now` and the note "CANCELLED: " followed by the reason,
every PENDING document of the (asset, user) cohort becomes CANCELLED, and
every SIGNED document (indeed every document outside that pending cohort)
is left unchanged. -/
theorem cancel_reverts_asset_and_documents (db : DB) (iid : Nat) (reason : String)
    (cu : User) (now : Nat) (iss : AssetIssuance) (asset : Asset)
    (hiss : db.issuances.find? (fun i => i.id == iid) = some iss)
    (hasset : db.assets.find? (fun a => a.id == iss.asset_id) = some asset)
    (hstatus : asset.status = AssetStatus.pending_for_signature ∨
               asset.status = AssetStatus.in_use) :
    (cancel_issuance db iid reason cu now).2 = .ok "Issuance cancelled successfully" ∧
    (cancel_issuance db iid reason cu now).1.assets.find?
        (fun a => a.id == iss.asset_id) =
      some { asset with status := AssetStatus.available, assigned_user_id := none,
                        department := "IT", updated_at := now } ∧
    (cancel_issuance db iid reason cu now).1.issuances.find?
        (fun i => i.id == iid) =
      some { iss with return_date := some now,
                      notes := some ("CANCELLED: " ++ reason) } ∧
    (∀ d ∈ db.documents, d.status = DocumentStatus.signed →
        d ∈ (cancel_issuance db iid reason cu now).1.documents) ∧
    (∀ d ∈ db.documents,
        d.asset_id = iss.asset_id → d.user_id = iss.user_id →
        d.status = DocumentStatus.pending →
        { d with status := DocumentStatus.cancelled } ∈
          (cancel_issuance db iid reason cu now).1.documents) ∧
    (∀ d ∈ db.documents,
        ¬ (d.asset_id = iss.asset_id ∧ d.user_id = iss.user_id ∧
           d.status = DocumentStatus.pending) →
        d ∈ (cancel_issuance db iid reason cu now).1.documents) := by
  have hid : asset.id = iss.asset_id := by simpa using List.find?_some hasset
  have hguard : (asset.status != AssetStatus.pending_for_signature &&
                 asset.status != AssetStatus.in_use) = false := by
    rcases hstatus with h | h <;> rw [h] <;> decide
  unfold cancel_issuance
  simp only [hiss, hasset, hguard, Bool.false_eq_true, if_false]
  rw [hid]
  refine ⟨by trivial, ?_, ?_, ?_, ?_, ?_⟩
  · exact find?_map_if _ hasset (by simp)
  · exact find?_map_if _ hiss (by simpa using List.find?_some hiss)
  · intro d hd hs
    refine mem_map_transform_of_eq _ hd ?_
    split
    next hc => simp [hs] at hc
    next hc => rfl
  · intro d hd h1 h2 h3
    refine mem_map_transform_of_eq _ hd ?_
    split
    next hc => rfl
    next hc => simp [h1, h2, h3] at hc
  · intro d hd hn
    refine mem_map_transform_of_eq _ hd ?_
    split
    next hc =>
      exfalso
      apply hn
      simp only [Bool.and_eq_true, beq_iff_eq] at hc
      tauto
    next hc => rfl

/-- C6 (amended): `cancel_issuance` never consults the issuance's own
return_date; its only guard is the asset's CURRENT status.  Cancelling an
already-closed issuance therefore fails with the InvalidState error (400)
— leaving the database, in particular the stored return_date and notes,
completely unchanged — exactly when the asset's status lies outside
{PENDING_FOR_SIGNATURE, IN_USE}; when the asset has meanwhile been
re-issued (status back inside that set) the same call succeeds and
overwrites the closed issuance's return_date and notes. -/
theorem cancel_guard_is_asset_status_only (db : DB) (iid : Nat) (reason : String)
    (cu : User) (now : Nat) (iss : AssetIssuance) (asset : Asset)
    (hiss : db.issuances.find? (fun i => i.id == iid) = some iss)
    (_hclosed : iss.return_date ≠ none)
    (hasset : db.assets.find? (fun a => a.id == iss.asset_id) = some asset) :
    (asset.status ≠ AssetStatus.pending_for_signature ∧
     asset.status ≠ AssetStatus.in_use →
      cancel_issuance db iid reason cu now =
        (db, .error ⟨400, "Can only cancel pending or active issuances"⟩)) ∧
    (asset.status = AssetStatus.pending_for_signature ∨
     asset.status = AssetStatus.in_use →
      (cancel_issuance db iid reason cu now).2 =
        .ok "Issuance cancelled successfully" ∧
      (cancel_issuance db iid reason cu now).1.issuances.find?
          (fun i => i.id == iid) =
        some { iss with return_date := some now,
                        notes := some ("CANCELLED: " ++ reason) }) := by
  constructor
  · intro h
    have hguard : (asset.status != AssetStatus.pending_for_signature &&
        asset.status != AssetStatus.in_use) = true := by
      simp only [Bool.and_eq_true, bne_iff_ne]
      exact h
    unfold cancel_issuance
    simp [hiss, hasset, hguard]
  · intro hstatus
    have hguard : (asset.status != AssetStatus.pending_for_signature &&
        asset.status != AssetStatus.in_use) = false := by
      rcases hstatus with h | h <;> rw [h] <;> decide
    unfold cancel_issuance
    simp only [hiss, hasset, hguard, Bool.false_eq_true, if_false]
    exact ⟨by trivial, find?_map_if _ hiss (by simpa using List.find?_some hiss)⟩

/-- C8 (amended): `issue_asset` is NOT one atomic unit.  The status
write, user assignment, department write, issuance insert and the three
document inserts are committed together by the endpoint's first
`db.commit()` (modelled by `issue_asset_core`); the audit-log append is a
separate, second commit performed inside `log_audit_action`.  The state
left by the first commit already contains the new issuance but no new
audit row, so a failure between the commits persists the issuance
without its audit entry. -/
theorem issue_core_commit_without_audit (db : DB) (aid : Nat)
    (req : AssetIssuanceCreate) (cu : User) (now : Nat) (asset : Asset)
    (user : User)
    (hfind : db.assets.find? (fun a => a.id == aid) = some asset)
    (hstatus : asset.status = AssetStatus.available)
    (huser : db.users.find? (fun us => us.id == req.user_id) = some user) :
    ∃ iss : AssetIssuance,
      (issue_asset_core db aid req now).2 = .ok (iss, asset, user) ∧
      (issue_asset_core db aid req now).1.issuances = db.issuances ++ [iss] ∧
      (issue_asset_core db aid req now).1.audit_logs = db.audit_logs ∧
      (∃ entry : AuditLog,
        (issue_asset db aid req cu now).1.audit_logs = db.audit_logs ++ [entry]) ∧
      (issue_asset db aid req cu now).1.issuances =
        (issue_asset_core db aid req now).1.issuances ∧
      (issue_asset db aid req cu now).1.assets =
        (issue_asset_core db aid req now).1.assets ∧
      (issue_asset db aid req cu now).1.documents =
        (issue_asset_core db aid req now).1.documents := by
  have hbne : (AssetStatus.available != AssetStatus.available) = false := by decide
  unfold issue_asset issue_asset_core
  simp only [hfind, huser, hstatus, hbne, Bool.false_eq_true, if_false]
  exact ⟨_, by trivial, by trivial, by trivial, ⟨_, by trivial⟩, by trivial,
    by trivial, by trivial⟩

/-- C2 (amended): `issue_asset` performs no active-issuance (ledger)
check at all: its only guards are asset existence, the
`status == AVAILABLE` test and user existence.  Whenever those pass it
opens a new active issuance even if active issuances already exist —
appending to the asset's active set — and no Conflict error exists:
every failure path returns 404 or 400, never 409. -/
theorem issue_asset_core_error_codes (db : DB) (aid : Nat)
    (req : AssetIssuanceCreate) (now : Nat) (e : ApiError)
    (he : (issue_asset_core db aid req now).2 = .error e) :
    e.status_code = 404 ∨ e.status_code = 400 := by
  unfold issue_asset_core at he
  repeat' split at he
  all_goals simp_all
  all_goals subst he
  all_goals simp

theorem issue_ignores_active_ledger (db : DB) (aid : Nat)
    (req : AssetIssuanceCreate) (cu : User) (now : Nat) :
    (∀ asset user,
      db.assets.find? (fun a => a.id == aid) = some asset →
      asset.status = AssetStatus.available →
      db.users.find? (fun us => us.id == req.user_id) = some user →
      ∃ iss, (issue_asset db aid req cu now).2 = .ok iss ∧
        iss.return_date = none ∧
        activeIssuancesFor (issue_asset db aid req cu now).1 aid =
          activeIssuancesFor db aid ++ [iss]) ∧
    (∀ e, (issue_asset db aid req cu now).2 = .error e →
      e.status_code = 404 ∨ e.status_code = 400) := by
  constructor
  · intro asset user hfind hstatus huser
    have hbne : (AssetStatus.available != AssetStatus.available) = false := by
      decide
    unfold issue_asset issue_asset_core
    simp only [hfind, huser, hstatus, hbne, Bool.false_eq_true, if_false]
    refine ⟨_, by trivial, by trivial, ?_⟩
    simp only [activeIssuancesFor, log_audit_action, List.filter_append]
    simp
  · intro e he
    unfold issue_asset at he
    rcases hcore : issue_asset_core db aid req now with ⟨db1, r⟩
    rw [hcore] at he
    cases r with
    | error e2 =>
      have h2 : (issue_asset_core db aid req now).2 = .error e2 := by rw [hcore]
      simp only [Except.error.injEq] at he
      exact he ▸ issue_asset_core_error_codes db aid req now e2 h2
    | ok v => simp at he

/-- C9 (amended): an invalid status enum string is treated as "no filter"
on the read paths (asset listing and CSV export); on the write path an
invalid status value is SILENTLY SKIPPED, not rejected — updating with it
behaves exactly as if the status field had not been supplied at all, so
the remaining fields are still applied and the call still succeeds. -/
theorem invalid_status_filters_and_writes (db : DB) :
    (∀ skip limit s department asset_type search,
      AssetStatus.parse? (pyStrip s) = none →
      get_assets db skip limit (some s) department asset_type search =
        get_assets db skip limit none department asset_type search) ∧
    (∀ s department, AssetStatus.parse? (pyStrip s) = none →
      export_assets_csv_query db (some s) department =
        export_assets_csv_query db none department) ∧
    (∀ aid u cu now v, u.status = some v → v ≠ "" →
      AssetStatus.parse? v = none →
      update_asset db aid u cu now =
        update_asset db aid { u with status := none } cu now) := by
  refine ⟨?_, ?_, ?_⟩
  · intro skip limit s department asset_type search hs
    unfold get_assets
    by_cases hempty : pyStrip s = ""
    · simp [hempty]
    · simp [hempty, hs]
  · intro s department hs
    unfold export_assets_csv_query
    by_cases hempty : pyStrip s = ""
    · simp [hempty]
    · simp [hempty, hs]
  · intro aid u cu now v hv hne hparse
    unfold update_asset
    cases hf : db.assets.find? (fun a => a.id == aid) with
    | none => rfl
    | some a => simp [hv, hne, hparse]

/-- In the code's all-signed recomputation, EXPIRED and CANCELLED
documents are invisible: the test is true exactly when the (asset,user)
cohort contains no PENDING document. -/
theorem allSigned_iff_no_pending (db : DB) (aid uid : Nat) :
    allSigned db aid uid = true ↔
      ∀ d ∈ db.documents, d.asset_id = aid → d.user_id = uid →
        d.status ≠ DocumentStatus.pending := by
  unfold allSigned
  rw [List.all_eq_true]
  constructor
  · intro h d hd h1 h2 hp
    have hdf : d ∈ db.documents.filter (fun d =>
        d.asset_id == aid && d.user_id == uid &&
        (d.status == DocumentStatus.pending || d.status == DocumentStatus.signed)) :=
      List.mem_filter.mpr ⟨hd, by simp [h1, h2, hp]⟩
    have := h d hdf
    rw [hp] at this
    simp at this
  · intro h d hd
    have hmem := List.mem_filter.mp hd
    have hcond := hmem.2
    simp only [Bool.and_eq_true, Bool.or_eq_true, beq_iff_eq] at hcond
    rcases hcond.2 with hp | hs
    · exact absurd hp (h d hmem.1 hcond.1.1 hcond.1.2)
    · simp [hs]

/-- C3 (amended): a successful signature recomputes "all signed" over the
(asset,user) cohort RESTRICTED to PENDING-or-SIGNED documents — EXPIRED
and CANCELLED documents are excluded, so a non-cancelled EXPIRED document
does not block the transition.  The test is true exactly when no PENDING
document remains in the cohort; when true the asset is moved to IN_USE
(keeping its assignee), and while any PENDING document remains the asset
table is left unchanged. -/
theorem sign_all_signed_excludes_expired (db : DB) (did : Nat)
    (req : DocumentSignRequest) (now : Nat) (doc : AssetDocument) (asset : Asset)
    (hfind : db.documents.find? (fun d => d.id == did) = some doc)
    (hpend : doc.status = DocumentStatus.pending)
    (hexp : ∀ t, doc.expires_at = some t → ¬ t < now)
    (hasset : db.assets.find? (fun a => a.id == doc.asset_id) = some asset) :
    ∃ doc2, (sign_document db did req now).2 = .ok doc2 ∧
      doc2.status = DocumentStatus.signed ∧
      (allSigned (sign_document db did req now).1 doc.asset_id doc.user_id = true ↔
        ∀ d ∈ (sign_document db did req now).1.documents,
          d.asset_id = doc.asset_id → d.user_id = doc.user_id →
          d.status ≠ DocumentStatus.pending) ∧
      (allSigned (sign_document db did req now).1 doc.asset_id doc.user_id = true →
        ∃ a2, (sign_document db did req now).1.assets.find?
            (fun a => a.id == doc.asset_id) = some a2 ∧
          a2.status = AssetStatus.in_use ∧
          a2.assigned_user_id = asset.assigned_user_id) ∧
      (allSigned (sign_document db did req now).1 doc.asset_id doc.user_id = false →
        (sign_document db did req now).1.assets = db.assets) := by
  have hbne : (DocumentStatus.pending != DocumentStatus.pending) = false := by
    decide
  have hexpf : (match doc.expires_at with
      | some t => decide (t < now)
      | none => false) = false := by
    cases hdoc : doc.expires_at with
    | none => rfl
    | some t => simpa using hexp t hdoc
  have hid : asset.id = doc.asset_id := by simpa using List.find?_some hasset
  have hasset2 : db.assets.find? (fun a => a.id == asset.id) = some asset := by
    rw [hid]; exact hasset
  unfold sign_document
  simp only [hfind, hpend, hbne, Bool.false_eq_true, if_false, hexpf, hasset]
  split_ifs with hall
  · refine ⟨_, by trivial, by trivial, allSigned_iff_no_pending _ _ _, ?_, ?_⟩
    · intro _
      rw [← hid]
      exact ⟨_, find?_map_if _ hasset2 (by simp), rfl, rfl⟩
    · intro hfalse
      unfold allSigned log_audit_action at hfalse
      rw [hall] at hfalse
      cases hfalse
  · refine ⟨_, by trivial, by trivial, allSigned_iff_no_pending _ _ _, ?_, ?_⟩
    · intro htrue
      unfold allSigned log_audit_action at htrue
      rw [eq_false_of_ne_true hall] at htrue
      cases htrue
    · intro _
      rfl

/-! Shape lemmas: what each operation can do to the `assets` table. -/

theorem create_asset_assets (db : DB) (ac : AssetCreate) (now : Nat) :
    (create_asset db ac now).1.assets = db.assets ∨
    ∃ x : Asset, (create_asset db ac now).1.assets = db.assets ++ [x] ∧
      x.status = AssetStatus.available ∧ x.assigned_user_id = none := by
  unfold create_asset get_system_user log_audit_action
  split
  · exact .inl rfl
  · simp only []
    right
    cases hsys : db.users.find? (fun u => u.username == "system") with
    | some u => refine ⟨_, rfl, ?_, ?_⟩ <;> rfl
    | none => refine ⟨_, rfl, ?_, ?_⟩ <;> rfl

theorem delete_asset_assets (db : DB) (aid : Nat) (now : Nat) :
    (delete_asset db aid now).1.assets = db.assets ∨
    (delete_asset db aid now).1.assets =
      db.assets.filter (fun b => !(b.id == aid)) := by
  unfold delete_asset
  split
  · exact .inl rfl
  split
  · exact .inl rfl
  · refine .inr ?_
    unfold get_system_user log_audit_action
    simp only []
    split <;> rfl

theorem issue_asset_core_assets (db : DB) (aid : Nat) (req : AssetIssuanceCreate)
    (now : Nat) :
    (issue_asset_core db aid req now).1.assets = db.assets ∨
    ∃ a2 : Asset,
      (issue_asset_core db aid req now).1.assets =
        db.assets.map (fun b => if b.id == aid then a2 else b) ∧
      a2.status = AssetStatus.pending_for_signature ∧
      a2.assigned_user_id = some req.user_id := by
  unfold issue_asset_core
  split
  · exact .inl rfl
  split
  · exact .inl rfl
  split
  · exact .inl rfl
  · refine .inr ⟨_, rfl, ?_, ?_⟩ <;> rfl

theorem issue_asset_assets (db : DB) (aid : Nat) (req : AssetIssuanceCreate)
    (cu : User) (now : Nat) :
    (issue_asset db aid req cu now).1.assets =
      (issue_asset_core db aid req now).1.assets := by
  unfold issue_asset
  rcases hcore : issue_asset_core db aid req now with ⟨db1, r⟩
  cases r with
  | error e => simp
  | ok v => simp [log_audit_action]

theorem return_asset_assets (db : DB) (aid : Nat) (now : Nat) :
    (return_asset db aid now).1.assets = db.assets ∨
    ∃ a2 : Asset,
      (return_asset db aid now).1.assets =
        db.assets.map (fun b => if b.id == aid then a2 else b) ∧
      a2.status = AssetStatus.available ∧ a2.assigned_user_id = none := by
  unfold return_asset
  split
  · exact .inl rfl
  split
  · exact .inl rfl
  · refine .inr ⟨_, rfl, ?_, ?_⟩ <;> rfl

theorem cancel_issuance_assets (db : DB) (iid : Nat) (reason : String) (cu : User)
    (now : Nat) :
    (cancel_issuance db iid reason cu now).1.assets = db.assets ∨
    ∃ aid2 a2, (cancel_issuance db iid reason cu now).1.assets =
        db.assets.map (fun b => if b.id == aid2 then a2 else b) ∧
      a2.status = AssetStatus.available ∧ a2.assigned_user_id = none := by
  unfold cancel_issuance
  split
  · exact .inl rfl
  split
  · exact .inl rfl
  split
  · exact .inl rfl
  · unfold log_audit_action
    refine .inr ⟨_, _, rfl, ?_, ?_⟩ <;> rfl

theorem sign_document_assets (db : DB) (did : Nat) (req : DocumentSignRequest)
    (now : Nat) :
    (sign_document db did req now).1.assets = db.assets ∨
    ∃ doc asset, db.documents.find? (fun d => d.id == did) = some doc ∧
      db.assets.find? (fun a => a.id == doc.asset_id) = some asset ∧
      (sign_document db did req now).1.assets =
        db.assets.map (fun b => if b.id == asset.id then
          { asset with status := AssetStatus.in_use, updated_at := now } else b) := by
  unfold sign_document
  cases hf : db.documents.find? (fun d => d.id == did) with
  | none => exact .inl rfl
  | some doc =>
    simp only []
    split
    · exact .inl rfl
    split
    · exact .inl rfl
    · cases ha : db.assets.find? (fun a => a.id == doc.asset_id) with
      | none => exact .inl rfl
      | some asset =>
        simp only []
        split_ifs with hall
        · refine .inr ⟨doc, asset, rfl, ha, ?_⟩
          unfold log_audit_action
          rfl
        · exact .inl rfl

/-- C1 (amended): the equivalence "assigned_user is set iff status is
PENDING_FOR_SIGNATURE or IN_USE" is preserved by create, delete, issue,
return and cancel unconditionally, and by sign whenever the signed
document's asset currently stands at PENDING_FOR_SIGNATURE or IN_USE.
It is NOT maintained by the administrative set-status update (see the
counterexample), which writes the status field without touching
assigned_user. -/
theorem assigned_iff_active_preserved (db : DB) (h : dbAssetInvariant db) :
    (∀ ac now, dbAssetInvariant (create_asset db ac now).1) ∧
    (∀ aid now, dbAssetInvariant (delete_asset db aid now).1) ∧
    (∀ aid req cu now, dbAssetInvariant (issue_asset db aid req cu now).1) ∧
    (∀ aid now, dbAssetInvariant (return_asset db aid now).1) ∧
    (∀ iid reason cu now,
      dbAssetInvariant (cancel_issuance db iid reason cu now).1) ∧
    (∀ did req now doc asset,
      db.documents.find? (fun d => d.id == did) = some doc →
      db.assets.find? (fun a => a.id == doc.asset_id) = some asset →
      (asset.status = AssetStatus.pending_for_signature ∨
       asset.status = AssetStatus.in_use) →
      dbAssetInvariant (sign_document db did req now).1) := by
  refine ⟨?_, ?_, ?_, ?_, ?_, ?_⟩
  · intro ac now a ha
    rcases create_asset_assets db ac now with heq | ⟨x, heq, hx1, hx2⟩ <;>
      rw [heq] at ha
    · exact h a ha
    · rcases List.mem_append.mp ha with h1 | h2
      · exact h a h1
      · simp only [List.mem_singleton] at h2
        subst h2
        unfold assetInvariant
        simp [hx1, hx2]
  · intro aid now a ha
    rcases delete_asset_assets db aid now with heq | heq <;> rw [heq] at ha
    · exact h a ha
    · exact h a (List.mem_of_mem_filter ha)
  · intro aid req cu now a ha
    rw [issue_asset_assets] at ha
    rcases issue_asset_core_assets db aid req now with heq | ⟨a2, heq, h1, h2⟩ <;>
      rw [heq] at ha
    · exact h a ha
    · refine forall_mem_map_if h ?_ a ha
      unfold assetInvariant
      simp [h1, h2]
  · intro aid now a ha
    rcases return_asset_assets db aid now with heq | ⟨a2, heq, h1, h2⟩ <;>
      rw [heq] at ha
    · exact h a ha
    · refine forall_mem_map_if h ?_ a ha
      unfold assetInvariant
      simp [h1, h2]
  · intro iid reason cu now a ha
    rcases cancel_issuance_assets db iid reason cu now with heq | ⟨aid2, a2, heq, h1, h2⟩ <;>
      rw [heq] at ha
    · exact h a ha
    · refine forall_mem_map_if h ?_ a ha
      unfold assetInvariant
      simp [h1, h2]
  · intro did req now doc asset hfind hasset hstatus a ha
    rcases sign_document_assets db did req now with heq | ⟨doc', asset', hf', ha', heq⟩ <;>
      rw [heq] at ha
    · exact h a ha
    · have hdoc : doc' = doc := by
        have := hf'.symm.trans hfind
        simpa using this
      subst hdoc
      have hasset2 : asset' = asset := by
        have := ha'.symm.trans hasset
        simpa using this
      subst hasset2
      have hinv := h asset' (List.mem_of_find?_eq_some ha')
      have hassigned : asset'.assigned_user_id ≠ none := by
        unfold assetInvariant at hinv
        exact hinv.mpr hstatus
      refine forall_mem_map_if h ?_ a ha
      unfold assetInvariant
      constructor
      · intro _
        right
        rfl
      · intro _
        exact hassigned

/-- C1 counterexample: the invariant holds after issuing LAP-001 to Bob,
but the administrative set-status update (PUT with status "available")
leaves Bob assigned while the status says AVAILABLE, so the claimed
equivalence is violated by that operation. -/
theorem admin_set_status_breaks_invariant :
    dbAssetInvariant dbB ∧ ¬ dbAssetInvariant dbAdminAvail := by decide

/-- Witness: the C1 preservation theorem applied to the concrete state
`dbB`, whose invariant the kernel checks directly. -/
theorem assigned_iff_active_preserved_witness :
    (∀ ac now, dbAssetInvariant (create_asset dbB ac now).1) ∧
    (∀ aid now, dbAssetInvariant (delete_asset dbB aid now).1) ∧
    (∀ aid req cu now, dbAssetInvariant (issue_asset dbB aid req cu now).1) ∧
    (∀ aid now, dbAssetInvariant (return_asset dbB aid now).1) ∧
    (∀ iid reason cu now,
      dbAssetInvariant (cancel_issuance dbB iid reason cu now).1) ∧
    (∀ did req now doc asset,
      dbB.documents.find? (fun d => d.id == did) = some doc →
      dbB.assets.find? (fun a => a.id == doc.asset_id) = some asset →
      (asset.status = AssetStatus.pending_for_signature ∨
       asset.status = AssetStatus.in_use) →
      dbAssetInvariant (sign_document dbB did req now).1) :=
  assigned_iff_active_preserved dbB (by decide)

/-- C2 counterexample: after the administrative status reset, issuing
LAP-001 to Carol succeeds (no Conflict) while Bob's issuance is still
open, leaving TWO issuances with NULL return_date for the same asset —
a state reached purely through the system's own operations. -/
theorem second_active_issuance_reachable :
    (∃ i, reissueCarol.2 = .ok i) ∧
    (activeIssuancesFor reissueCarol.1 1).length = 2 :=
  ⟨⟨_, rfl⟩, by decide⟩

/-- Witness: the C2 theorem applied at `dbAdminAvail`, where issuance 1
is still active, showing the second issue call succeeds and appends a
second active issuance. -/
theorem issue_ignores_active_ledger_witness :
    ∃ iss, (issue_asset dbAdminAvail 1 issueReqCarol adminUser 20).2 = .ok iss ∧
      iss.return_date = none ∧
      activeIssuancesFor (issue_asset dbAdminAvail 1 issueReqCarol adminUser 20).1 1 =
        activeIssuancesFor dbAdminAvail 1 ++ [iss] :=
  (issue_ignores_active_ledger dbAdminAvail 1 issueReqCarol adminUser 20).1
    lapAssetReset carolUser (by rfl) (by rfl) (by rfl)

/-- C3 counterexample: in `dbCohort2Partial` document 1 of the
(asset 1, Bob) cohort is EXPIRED (not cancelled) and the asset stands at
PENDING_FOR_SIGNATURE; signing document 6 nevertheless moves the asset
to IN_USE — the non-cancelled EXPIRED document does not block the
transition, contradicting the claimed all-signed formula. -/
theorem expired_document_does_not_block :
    ((dbCohort2Partial.documents.find? (fun d => d.id == 1)).map
      AssetDocument.status = some DocumentStatus.expired) ∧
    ((dbCohort2Partial.assets.find? (fun a => a.id == 1)).map Asset.status =
      some AssetStatus.pending_for_signature) ∧
    (((signDoc6).1.assets.find? (fun a => a.id == 1)).map Asset.status =
      some AssetStatus.in_use) := by decide

/-- Witness: the C3 theorem applied to the concrete final signature of
document 6. -/
theorem sign_all_signed_excludes_expired_witness :
    ∃ doc2, (sign_document dbCohort2Partial 6 ⟨"sig6", none⟩ (sevenDays + 4)).2 =
        .ok doc2 ∧
      doc2.status = DocumentStatus.signed ∧
      (allSigned (sign_document dbCohort2Partial 6 ⟨"sig6", none⟩ (sevenDays + 4)).1
          doc6Fixture.asset_id doc6Fixture.user_id = true ↔
        ∀ d ∈ (sign_document dbCohort2Partial 6 ⟨"sig6", none⟩ (sevenDays + 4)).1.documents,
          d.asset_id = doc6Fixture.asset_id → d.user_id = doc6Fixture.user_id →
          d.status ≠ DocumentStatus.pending) ∧
      (allSigned (sign_document dbCohort2Partial 6 ⟨"sig6", none⟩ (sevenDays + 4)).1
          doc6Fixture.asset_id doc6Fixture.user_id = true →
        ∃ a2, (sign_document dbCohort2Partial 6 ⟨"sig6", none⟩ (sevenDays + 4)).1.assets.find?
            (fun a => a.id == doc6Fixture.asset_id) = some a2 ∧
          a2.status = AssetStatus.in_use ∧
          a2.assigned_user_id = lapAssetPending2.assigned_user_id) ∧
      (allSigned (sign_document dbCohort2Partial 6 ⟨"sig6", none⟩ (sevenDays + 4)).1
          doc6Fixture.asset_id doc6Fixture.user_id = false →
        (sign_document dbCohort2Partial 6 ⟨"sig6", none⟩ (sevenDays + 4)).1.assets =
          dbCohort2Partial.assets) :=
  sign_all_signed_excludes_expired dbCohort2Partial 6 ⟨"sig6", none⟩ (sevenDays + 4)
    doc6Fixture lapAssetPending2 (by rfl) (by rfl)
    (by intro t ht; cases ht; decide) (by rfl)

/-- Witness: the C4 theorem applied to the concrete issue of LAP-001 to
Bob on the freshly created database. -/
theorem issue_available_succeeds_witness :
    ∃ iss : AssetIssuance,
      (issue_asset dbA 1 issueReqBob adminUser 0).2 = .ok iss ∧
      iss.asset_id = 1 ∧ iss.user_id = issueReqBob.user_id ∧
      iss.return_date = none ∧
      (issue_asset dbA 1 issueReqBob adminUser 0).1.issuances =
        dbA.issuances ++ [iss] ∧
      (∃ d1 d2 d3 : AssetDocument,
        (issue_asset dbA 1 issueReqBob adminUser 0).1.documents =
          dbA.documents ++ [d1, d2, d3] ∧
        ∀ d ∈ [d1, d2, d3], d.status = DocumentStatus.pending ∧
          d.asset_id = 1 ∧ d.user_id = issueReqBob.user_id) ∧
      (∃ a2 : Asset,
        (issue_asset dbA 1 issueReqBob adminUser 0).1.assets.find?
          (fun a => a.id == 1) = some a2 ∧
        a2.status = AssetStatus.pending_for_signature ∧
        a2.assigned_user_id = some issueReqBob.user_id ∧
        a2.department = bobUser.department) :=
  issue_available_succeeds dbA 1 issueReqBob adminUser 0 lapAsset bobUser
    (by rfl) (by rfl) (by rfl)

/-- Witness: the C5 theorem applied to cancelling Bob's pending issuance
of LAP-001 at time 100. -/
theorem cancel_reverts_asset_and_documents_witness :
    (cancel_issuance dbB 1 "changed mind" adminUser 100).2 =
      .ok "Issuance cancelled successfully" ∧
    (cancel_issuance dbB 1 "changed mind" adminUser 100).1.assets.find?
        (fun a => a.id == iss1Fixture.asset_id) =
      some { lapAssetPending with
             status := AssetStatus.available,
             assigned_user_id := none, department := "IT", updated_at := 100 } ∧
    (cancel_issuance dbB 1 "changed mind" adminUser 100).1.issuances.find?
        (fun i => i.id == 1) =
      some { iss1Fixture with
             return_date := some 100,
             notes := some ("CANCELLED: " ++ "changed mind") } ∧
    (∀ d ∈ dbB.documents, d.status = DocumentStatus.signed →
      d ∈ (cancel_issuance dbB 1 "changed mind" adminUser 100).1.documents) ∧
    (∀ d ∈ dbB.documents,
      d.asset_id = iss1Fixture.asset_id → d.user_id = iss1Fixture.user_id →
      d.status = DocumentStatus.pending →
      { d with status := DocumentStatus.cancelled } ∈
        (cancel_issuance dbB 1 "changed mind" adminUser 100).1.documents) ∧
    (∀ d ∈ dbB.documents,
      ¬ (d.asset_id = iss1Fixture.asset_id ∧ d.user_id = iss1Fixture.user_id ∧
         d.status = DocumentStatus.pending) →
      d ∈ (cancel_issuance dbB 1 "changed mind" adminUser 100).1.documents) :=
  cancel_reverts_asset_and_documents dbB 1 "changed mind" adminUser 100
    iss1Fixture lapAssetPending (by rfl) (by rfl) (.inl (by rfl))

/-- C6 counterexample: issuance 1 is already closed (return_date 30) in
`dbReissueCarol`, yet cancelling it succeeds — because the asset stands
at PENDING_FOR_SIGNATURE for Carol's issuance — and its stored
return_date and notes are overwritten, contrary to the claimed
InvalidState guard. -/
theorem cancel_closed_issuance_succeeds :
    ((dbReissueCarol.issuances.find? (fun i => i.id == 1)).map
      AssetIssuance.return_date = some (some 30)) ∧
    (∃ s, cancelClosed.2 = .ok s) ∧
    ((cancelClosed.1.issuances.find? (fun i => i.id == 1)).map
      AssetIssuance.return_date = some (some 50)) ∧
    ((cancelClosed.1.issuances.find? (fun i => i.id == 1)).map
      AssetIssuance.notes = some (some "CANCELLED: changed mind")) :=
  ⟨by decide, ⟨_, rfl⟩, by decide, by decide⟩

/-- Witness: the C6 theorem applied to the closed issuance 1 in `dbRet`,
where the asset is AVAILABLE, so the cancel call fails and changes
nothing. -/
theorem cancel_guard_is_asset_status_only_witness :
    (lapAssetReturned.status ≠ AssetStatus.pending_for_signature ∧
     lapAssetReturned.status ≠ AssetStatus.in_use →
      cancel_issuance dbRet 1 "oops" adminUser 60 =
        (dbRet, .error ⟨400, "Can only cancel pending or active issuances"⟩)) ∧
    (lapAssetReturned.status = AssetStatus.pending_for_signature ∨
     lapAssetReturned.status = AssetStatus.in_use →
      (cancel_issuance dbRet 1 "oops" adminUser 60).2 =
        .ok "Issuance cancelled successfully" ∧
      (cancel_issuance dbRet 1 "oops" adminUser 60).1.issuances.find?
          (fun i => i.id == 1) =
        some { iss1Closed with
               return_date := some 60,
               notes := some ("CANCELLED: " ++ "oops") }) :=
  cancel_guard_is_asset_status_only dbRet 1 "oops" adminUser 60 iss1Closed
    lapAssetReturned (by rfl) (by decide) (by rfl)

/-- Witness: the C7 theorem applied to the attempt to sign the expired
document 1 just after its window lapsed. -/
theorem sign_expired_fails_witness :
    (sign_document dbReissueBob 1 ⟨"sig1", none⟩ (sevenDays + 1)).2 =
      .error ⟨400, "Document has expired"⟩ ∧
    (sign_document dbReissueBob 1 ⟨"sig1", none⟩ (sevenDays + 1)).1.documents.find?
        (fun d => d.id == 1) =
      some { doc1Fixture with status := DocumentStatus.expired } ∧
    AssetDocument.signature_data
      { doc1Fixture with status := DocumentStatus.expired } =
      doc1Fixture.signature_data ∧
    AssetDocument.signed_at { doc1Fixture with status := DocumentStatus.expired } =
      doc1Fixture.signed_at ∧
    (sign_document dbReissueBob 1 ⟨"sig1", none⟩ (sevenDays + 1)).1.assets =
      dbReissueBob.assets ∧
    (sign_document dbReissueBob 1 ⟨"sig1", none⟩ (sevenDays + 1)).1.issuances =
      dbReissueBob.issuances ∧
    (sign_document dbReissueBob 1 ⟨"sig1", none⟩ (sevenDays + 1)).1.audit_logs =
      dbReissueBob.audit_logs ∧
    (∀ d ∈ dbReissueBob.documents, d.id ≠ 1 →
      d ∈ (sign_document dbReissueBob 1 ⟨"sig1", none⟩ (sevenDays + 1)).1.documents) :=
  sign_expired_fails dbReissueBob 1 ⟨"sig1", none⟩ (sevenDays + 1) doc1Fixture
    sevenDays (by rfl) (by rfl) (by rfl) (by decide)

/-- C8 counterexample: the state committed by the first commit of the
concrete issue of LAP-001 to Bob differs from both the pre-state and the
final state: it already holds the active issuance but no new audit row,
so the endpoint's writes are not one atomic unit. -/
theorem issue_audit_commit_is_separate :
    c8Mid ≠ dbA ∧ c8Mid ≠ dbB ∧
    (activeIssuancesFor c8Mid 1).length = 1 ∧
    c8Mid.audit_logs.length = dbA.audit_logs.length := by decide

/-- Witness: the C8 theorem applied to the concrete issue of LAP-001 to
Bob. -/
theorem issue_core_commit_without_audit_witness :
    ∃ iss : AssetIssuance,
      (issue_asset_core dbA 1 issueReqBob 0).2 = .ok (iss, lapAsset, bobUser) ∧
      (issue_asset_core dbA 1 issueReqBob 0).1.issuances = dbA.issuances ++ [iss] ∧
      (issue_asset_core dbA 1 issueReqBob 0).1.audit_logs = dbA.audit_logs ∧
      (∃ entry : AuditLog,
        (issue_asset dbA 1 issueReqBob adminUser 0).1.audit_logs =
          dbA.audit_logs ++ [entry]) ∧
      (issue_asset dbA 1 issueReqBob adminUser 0).1.issuances =
        (issue_asset_core dbA 1 issueReqBob 0).1.issuances ∧
      (issue_asset dbA 1 issueReqBob adminUser 0).1.assets =
        (issue_asset_core dbA 1 issueReqBob 0).1.assets ∧
      (issue_asset dbA 1 issueReqBob adminUser 0).1.documents =
        (issue_asset_core dbA 1 issueReqBob 0).1.documents :=
  issue_core_commit_without_audit dbA 1 issueReqBob adminUser 0 lapAsset bobUser
    (by rfl) (by rfl) (by rfl)

/-- C9 counterexample: updating LAP-001 with notes "hello" and the
invalid status "bogus" succeeds — it is not rejected — while the invalid
status is silently dropped (status stays AVAILABLE) and the note is
applied. -/
theorem update_invalid_status_silently_skipped :
    ∃ a2, bogusUpdRes.2 = .ok a2 ∧ a2.status = AssetStatus.available ∧
      a2.notes = some "hello" :=
  ⟨_, rfl, by decide, by decide⟩

/-- Witness: the C9 theorem applied to the invalid filter value "bogus"
on the listing query and to the invalid status write on LAP-001. -/
theorem invalid_status_filters_and_writes_witness :
    (get_assets dbA 0 20 (some "bogus") none none none =
      get_assets dbA 0 20 none none none none) ∧
    (export_assets_csv_query dbA (some "bogus") none =
      export_assets_csv_query dbA none none) ∧
    (update_asset dbA 1 bogusUpd adminUser 7 =
      update_asset dbA 1 { bogusUpd with status := none } adminUser 7) :=
  ⟨(invalid_status_filters_and_writes dbA).1 0 20 "bogus" none none none
      (by decide),
   (invalid_status_filters_and_writes dbA).2.1 "bogus" none (by decide),
   (invalid_status_filters_and_writes dbA).2.2 1 bogusUpd adminUser 7 "bogus"
      rfl (by decide) (by decide)⟩

/-- Witness: the C10 theorem applied to returning LAP-001 at time 30
while it is still only PENDING_FOR_SIGNATURE (no signature was ever
given), showing the documents survive untouched. -/
theorem return_ignores_status_keeps_documents_witness :
    iss1Fixture.return_date = none ∧
    (return_asset dbB 1 30).2 = .ok { iss1Fixture with return_date := some 30 } ∧
    { iss1Fixture with return_date := some 30 } ∈
      (return_asset dbB 1 30).1.issuances ∧
    (∃ a2 : Asset,
      (return_asset dbB 1 30).1.assets.find? (fun a => a.id == 1) = some a2 ∧
      a2.status = AssetStatus.available ∧ a2.assigned_user_id = none ∧
      a2.department = "IT") ∧
    (return_asset dbB 1 30).1.documents = dbB.documents :=
  return_ignores_status_keeps_documents dbB 1 30 lapAssetPending iss1Fixture
    (by rfl) (by rfl)

end ITAM
